import Mathlib

/-!
Verification of the `upython_i2c_drivers` repository.

Shallow embedding of `i2c_device.py` (classes `Device`, `Register`, `Field`),
`helpers.py` (`read_modify`, `check_range`) and the `voltage_limit` accessor of
`BQ25756.py`, together with theorems settling the specification claims.

Modelling conventions:
* A register's backing store on the bus is a single natural number `s < 256`
  (the byte held by the addressed register); `readfrom_mem` returns the byte
  most recently written, which is the transport assumption the specification
  makes for the verify-by-readback logic.
* Every operation returns a triple: the Python result (`Except Err α`, where
  `.error` is a raised exception), the new stored byte, and the ordered list of
  I2C transactions issued.
* Python's arbitrary-precision bitwise operators on `int` are embedded as
  `pyAnd`, `pyOr`, `pyNot`, `pyShiftLeft` over `Int`, with the usual
  two's-complement semantics of negative operands.
-/

namespace I2CDrivers

/-- Python bitwise complement on arbitrary-precision integers: `~x = -x - 1`. -/
def pyNot (x : Int) : Int := -x - 1

/-- `a &&& ~~~m` for naturals, written with kernel-reducible operations:
bit `i` is `a.testBit i && !(m.testBit i)`. -/
def natDiff (a m : Nat) : Nat := a ^^^ (a &&& m)

/-- Python bitwise AND on arbitrary-precision integers (two's complement on
negative operands), by sign case analysis. -/
def pyAnd (x y : Int) : Int :=
  if 0 ≤ x then
    if 0 ≤ y then ((x.toNat &&& y.toNat : Nat) : Int)
    else ((natDiff x.toNat (pyNot y).toNat : Nat) : Int)
  else
    if 0 ≤ y then ((natDiff y.toNat (pyNot x).toNat : Nat) : Int)
    else pyNot (((pyNot x).toNat ||| (pyNot y).toNat : Nat) : Int)

/-- Python bitwise OR on arbitrary-precision integers (two's complement on
negative operands), by sign case analysis. -/
def pyOr (x y : Int) : Int :=
  if 0 ≤ x then
    if 0 ≤ y then ((x.toNat ||| y.toNat : Nat) : Int)
    else pyNot ((natDiff (pyNot y).toNat x.toNat : Nat) : Int)
  else
    if 0 ≤ y then pyNot ((natDiff (pyNot x).toNat y.toNat : Nat) : Int)
    else pyNot (((pyNot x).toNat &&& (pyNot y).toNat : Nat) : Int)

/-- Python left shift on arbitrary-precision integers: `x << n = x * 2^n`. -/
def pyShiftLeft (x : Int) (n : Nat) : Int := x * 2 ^ n

/-- `helpers.read_modify` (helpers.py lines 53-71):
`write_data = (read_data & ~bit_mask) | (modify_data & bit_mask)`. -/
def read_modify (read_data modify_data bit_mask : Int) : Int :=
  pyOr (pyAnd read_data (pyNot bit_mask)) (pyAnd modify_data bit_mask)

/-- Exceptions raised by the driver code, one constructor per distinct raise
site category.  All of them are `ValueError` in the Python source except
`attributeError`, which is Python's `AttributeError` from referencing an
attribute that does not exist on the object. -/
inductive Err where
  /-- "I2C bus not initialized." -/
  | busNotInitialized
  /-- permission check failed; carries the r_w tag of the target -/
  | permissionError (r_w : String)
  /-- "Value ... is too large for ... size ..." -/
  | valueTooLarge (value : Int) (width : Nat)
  /-- Python `AttributeError`: the named attribute does not exist -/
  | attributeError (attr : String)
  /-- `bytes([v])` with `v` outside `0..255` -/
  | byteRangeError (value : Int)
  /-- "Write confirmation failed." -/
  | writeConfirmFailed (readData : Nat) (written : Int)
  /-- `Field.__init__`: r_w tag not in `_RW_TYPE` -/
  | badRWTag (r_w : String)
  /-- register width is not a power of two (`Register.__init__`) -/
  | powerOfTwo (width : Nat)
  /-- `helpers.check_range`: value outside `[lo, hi]` -/
  | rangeCheckError (value lo hi : Int)
  deriving DecidableEq

/-- `_RW_TYPE = ['R', 'W', 'R/W']` (i2c_device.py line 19). -/
def RW_TYPE : List String := ["R", "W", "R/W"]

/-- `_READ = ['R', 'R/W']` (i2c_device.py line 20). -/
def READ : List String := ["R", "R/W"]

/-- `_WRITE = ['W', 'R/W']` (i2c_device.py line 21). -/
def WRITE : List String := ["W", "R/W"]

/-- One I2C transaction reaching the bus (micropython `machine.I2C` calls
`readfrom_mem` / `writeto_mem`). -/
inductive BusOp where
  | readMem (devAddr regAddr : Nat)
  | writeMem (devAddr regAddr data : Nat)
  deriving DecidableEq

/-- `Device` (i2c_device.py lines 27-53).  `i2c_bus` is the truthiness of the
bus object.  `add_register` does `setattr(self, name, register)`, so the
attribute `self.register`, consulted by `reg_write`, exists only when a
register literally named "register" was added; `registerAttr` holds that
register's r_w tag in that case, and `none` otherwise. -/
structure Device where
  addr : Nat
  i2c_bus : Bool
  registerAttr : Option String
  deriving DecidableEq

/-- `Register` (i2c_device.py lines 147-181).  `r_w` is stored unvalidated. -/
structure Register where
  device : Device
  addr : Nat
  width : Nat
  r_w : String
  deriving DecidableEq

/-- `Field` (i2c_device.py lines 255-295).  The Python object also stores
`self.device = register.device` and `self.i2c_bus = register.i2c_bus`; we read
them through `register`. -/
structure Field where
  register : Register
  bit_offset : Nat
  width : Nat
  r_w : String
  deriving DecidableEq

/-- The dynamic checks of `Register.__init__` (lines 160-181): the name,
address and width type checks are static here; the width must be a power of
two (line 171); the `r_w` string is stored without any validation. -/
def mkRegister (device : Device) (addr width : Nat) (r_w : String) :
    Except Err Register :=
  if width = 0 ∨ width &&& (width - 1) ≠ 0 then .error (.powerOfTwo width)
  else .ok { device := device, addr := addr, width := width, r_w := r_w }

/-- The dynamic checks of `Field.__init__` (lines 275-295): the `r_w` tag must
be one of `_RW_TYPE` (line 285), unlike in `Register.__init__`. -/
def mkField (register : Register) (bit_offset width : Nat) (r_w : String) :
    Except Err Field :=
  if (RW_TYPE.contains r_w) = false then .error (.badRWTag r_w)
  else .ok { register := register, bit_offset := bit_offset,
             width := width, r_w := r_w }

/-- `Register.read` (lines 202-218): bus check, permission check, then one
`readfrom_mem` returning the stored byte. -/
def Register.read (r : Register) (s : Nat) :
    Except Err Nat × Nat × List BusOp :=
  if r.device.i2c_bus = false then (.error .busNotInitialized, s, [])
  else if (READ.contains r.r_w) = false then
    (.error (.permissionError r.r_w), s, [])
  else (.ok s, s, [.readMem r.device.addr r.addr])

/-- `Register.write` (lines 221-251): bus check, permission check, width
check (which uses `self.width`, correctly), `writeto_mem` of `bytes([value])`,
then verify-by-readback when the register is readable. -/
def Register.write (r : Register) (value : Int) (s : Nat) :
    Except Err Unit × Nat × List BusOp :=
  if r.device.i2c_bus = false then (.error .busNotInitialized, s, [])
  else if (WRITE.contains r.r_w) = false then
    (.error (.permissionError r.r_w), s, [])
  else if (2 : Int) ^ r.width - 1 < value then
    (.error (.valueTooLarge value r.width), s, [])
  else if value < 0 ∨ 255 < value then (.error (.byteRangeError value), s, [])
  else
    let s1 := value.toNat
    let t1 : List BusOp := [.writeMem r.device.addr r.addr s1]
    if READ.contains r.r_w then
      match r.read s1 with
      | (.error e, s2, t2) => (.error e, s2, t1 ++ t2)
      | (.ok rd, s2, t2) =>
        if (rd : Int) ≠ value then
          (.error (.writeConfirmFailed rd value), s2, t1 ++ t2)
        else (.ok (), s2, t1 ++ t2)
    else (.ok (), s1, t1)

/-- `Field.read` (lines 297-315): bus check, permission check, one
`readfrom_mem`, then `(read_data >> bit_offset) & (2**width - 1)`. -/
def Field.read (f : Field) (s : Nat) : Except Err Nat × Nat × List BusOp :=
  if f.register.device.i2c_bus = false then (.error .busNotInitialized, s, [])
  else if (READ.contains f.r_w) = false then
    (.error (.permissionError f.r_w), s, [])
  else (.ok ((s >>> f.bit_offset) &&& (2 ^ f.width - 1)), s,
        [.readMem f.register.device.addr f.register.addr])

/-- `Field.write` (lines 317-354): bus check, permission check, width check;
then `self.register.read()` (subject to the register's own permission check),
clear the field bits, OR in the shifted value, `writeto_mem` of
`bytes([int(register_data)])`, and an unconditional verify via `self.read()`.

The width-check branch (lines 334-335) builds its error message by
interpolating `self.size`, an attribute `Field` never defines, so Python
raises `AttributeError` there before the intended `ValueError` exists. -/
def Field.write (f : Field) (value : Int) (s : Nat) :
    Except Err Unit × Nat × List BusOp :=
  if f.register.device.i2c_bus = false then (.error .busNotInitialized, s, [])
  else if (WRITE.contains f.r_w) = false then
    (.error (.permissionError f.r_w), s, [])
  else if (2 : Int) ^ f.width - 1 < value then
    (.error (.attributeError "size"), s, [])
  else
    match f.register.read s with
    | (.error e, s1, t1) => (.error e, s1, t1)
    | (.ok register_data, s1, t1) =>
      let rd1 : Int :=
        pyAnd (register_data : Int)
          (pyNot (pyShiftLeft ((2 : Int) ^ f.width - 1) f.bit_offset))
      let rd2 : Int := pyOr rd1 (pyShiftLeft value f.bit_offset)
      if rd2 < 0 ∨ 255 < rd2 then (.error (.byteRangeError rd2), s1, t1)
      else
        let s2 := rd2.toNat
        let t2 := t1 ++
          [BusOp.writeMem f.register.device.addr f.register.addr s2]
        match f.read s2 with
        | (.error e, s3, t3) => (.error e, s3, t2 ++ t3)
        | (.ok read_data, s3, t3) =>
          if (read_data : Int) ≠ value then
            (.error (.writeConfirmFailed read_data value), s3, t2 ++ t3)
          else (.ok (), s3, t2 ++ t3)

/-- `Device.reg_read` (lines 107-119): bus check, then one `readfrom_mem`. -/
def Device.reg_read (d : Device) (register : Register) (s : Nat) :
    Except Err Nat × Nat × List BusOp :=
  if d.i2c_bus = false then (.error .busNotInitialized, s, [])
  else (.ok s, s, [.readMem d.addr register.addr])

/-- `Device.reg_write` (lines 122-141): `writeto_mem` of `bytes([data])`
directly (there is no explicit bus check; a falsy bus fails at the transport
call itself, modelled as the bus error), then line 136 consults
`self.register.r_w` — the attribute named "register" on the device, not the
`register` parameter — raising `AttributeError` when no register of that
literal name was ever added; otherwise verify-by-readback when that
attribute's tag is readable. -/
def Device.reg_write (d : Device) (register : Register) (data : Int)
    (s : Nat) : Except Err Unit × Nat × List BusOp :=
  if d.i2c_bus = false then (.error .busNotInitialized, s, [])
  else if data < 0 ∨ 255 < data then (.error (.byteRangeError data), s, [])
  else
    let s1 := data.toNat
    let t1 : List BusOp := [.writeMem d.addr register.addr s1]
    match d.registerAttr with
    | none => (.error (.attributeError "register"), s1, t1)
    | some rw =>
      if READ.contains rw then
        match d.reg_read register s1 with
        | (.error e, s2, t2) => (.error e, s2, t1 ++ t2)
        | (.ok rd, s2, t2) =>
          if (rd : Int) ≠ data then
            (.error (.writeConfirmFailed rd data), s2, t1 ++ t2)
          else (.ok (), s2, t1 ++ t2)
      else (.ok (), s1, t1)

/-- The BQ25756 device object (BQ25756.py): address 0x6B; none of its
registers is named "register". -/
def BQ25756.device (bus : Bool) : Device :=
  { addr := 0x6B, i2c_bus := bus, registerAttr := none }

/-- `CHARGE_VOLT_LIMIT` register of the BQ25756 (address 0x00, default
width 8, r_w "R/W"). -/
def BQ25756.CHARGE_VOLT_LIMIT (bus : Bool) : Register :=
  { device := BQ25756.device bus, addr := 0x00, width := 8, r_w := "R/W" }

/-- `VFB_REG` field of `CHARGE_VOLT_LIMIT` (bit_offset 0, width 5, "R/W"). -/
def BQ25756.VFB_REG (bus : Bool) : Field :=
  { register := BQ25756.CHARGE_VOLT_LIMIT bus, bit_offset := 0, width := 5,
    r_w := "R/W" }

/-- `BQ25756.voltage_limit()` query path (BQ25756.py lines 112-128): read the
`VFB_REG` field and return `(bit_value * 2) + 1054` — the constant the source
actually uses on this path. -/
def BQ25756.voltage_limit_query (bus : Bool) (s : Nat) :
    Except Err Int × Nat × List BusOp :=
  match (BQ25756.VFB_REG bus).read s with
  | (.error e, s1, t1) => (.error e, s1, t1)
  | (.ok bit_value, s1, t1) => (.ok ((bit_value : Int) * 2 + 1054), s1, t1)

/-- `BQ25756.voltage_limit(voltage_mv)` command path (lines 130-140):
`check_range(voltage_mv, 'voltage_mv', 1504, 1566)`, then
`bit_value = int((voltage_mv - 1504) / 2)` (the float halving of the
nonnegative even-or-odd difference truncates toward zero, i.e. integer
division here), then `VFB_REG.write(bit_value)`. -/
def BQ25756.voltage_limit_command (bus : Bool) (voltage_mv : Int) (s : Nat) :
    Except Err Unit × Nat × List BusOp :=
  if voltage_mv < 1504 ∨ 1566 < voltage_mv then
    (.error (.rangeCheckError voltage_mv 1504 1566), s, [])
  else (BQ25756.VFB_REG bus).write ((voltage_mv - 1504) / 2) s

/-- The byte `Field.write` stores: field bits `[b, b+w)` of `s` replaced by
`v`, all other bits of `s` preserved. -/
def storeByte (s b w v : Nat) : Nat :=
  natDiff s ((2 ^ w - 1) <<< b) ||| (v <<< b)

/-! ### Concrete test fixtures -/

/-- A device with an initialized bus and no register named "register". -/
def exDevice : Device := { addr := 0x40, i2c_bus := true, registerAttr := none }

/-- A readable-writable 8-bit register. -/
def exRegister : Register :=
  { device := exDevice, addr := 0x01, width := 8, r_w := "R/W" }

/-- A 3-bit read-write field at bit offset 2 (the spec's mask-isolation
example field). -/
def exField : Field :=
  { register := exRegister, bit_offset := 2, width := 3, r_w := "R/W" }

/-- A sibling field occupying bits 5-7 of the same register. -/
def exSibling : Field :=
  { register := exRegister, bit_offset := 5, width := 3, r_w := "R/W" }

/-- A read-only field on the same register. -/
def exReadOnlyField : Field :=
  { register := exRegister, bit_offset := 0, width := 2, r_w := "R" }

/-- A write-only field on the same register. -/
def exWriteOnlyField : Field :=
  { register := exRegister, bit_offset := 2, width := 3, r_w := "W" }

/-- A register carrying an r_w tag outside `_RW_TYPE`, as `Register.__init__`
happily stores. -/
def exRawRegister : Register :=
  { device := exDevice, addr := 0x02, width := 8, r_w := "banana" }

/-! ### Bit-level helper lemmas -/

theorem testBit_natDiff (a m i : Nat) :
    (natDiff a m).testBit i = (a.testBit i && !m.testBit i) := by
  simp only [natDiff, Nat.testBit_xor, Nat.testBit_land]
  cases a.testBit i <;> cases m.testBit i <;> rfl

theorem natDiff_lt (a m n : Nat) (ha : a < 2 ^ n) : natDiff a m < 2 ^ n :=
  Nat.xor_lt_two_pow ha (Nat.lt_of_le_of_lt Nat.and_le_left ha)

theorem pyNot_pyNot (x : Int) : pyNot (pyNot x) = x := by
  simp [pyNot]

theorem pyNot_coe_neg (m : Nat) : pyNot (m : Int) < 0 := by
  simp only [pyNot]
  omega

/-- `a & ~m` for natural `a`, `m` is the bitwise difference. -/
theorem pyAnd_coe_pyNot_coe (a m : Nat) :
    pyAnd (a : Int) (pyNot (m : Int)) = ((natDiff a m : Nat) : Int) := by
  have h1 : ¬ (0 : Int) ≤ pyNot (m : Int) := by
    simpa using pyNot_coe_neg m
  simp [pyAnd, h1, pyNot_pyNot]

/-- `a & c` for naturals is `Nat.land`. -/
theorem pyAnd_coe_coe (a c : Nat) :
    pyAnd (a : Int) (c : Int) = ((a &&& c : Nat) : Int) := by
  simp [pyAnd]

/-- `a | c` for naturals is `Nat.lor`. -/
theorem pyOr_coe_coe (a c : Nat) :
    pyOr (a : Int) (c : Int) = ((a ||| c : Nat) : Int) := by
  simp [pyOr]

/-- `a | y` for natural `a` and negative `y` is negative. -/
theorem pyOr_coe_neg (a : Nat) (y : Int) (hy : y < 0) :
    pyOr (a : Int) y = pyNot ((natDiff (pyNot y).toNat a : Nat) : Int) := by
  have h1 : ¬ (0 : Int) ≤ y := by omega
  simp [pyOr, h1]

theorem pyShiftLeft_coe (a n : Nat) :
    pyShiftLeft (a : Int) n = ((a <<< n : Nat) : Int) := by
  simp [pyShiftLeft, Nat.shiftLeft_eq]

theorem pyShiftLeft_neg (x : Int) (n : Nat) (hx : x < 0) :
    pyShiftLeft x n < 0 := by
  have h : (0 : Int) < 2 ^ n := by positivity
  simpa [pyShiftLeft] using Int.mul_neg_of_neg_of_pos hx h

theorem two_pow_sub_one_cast (w : Nat) :
    ((2 ^ w - 1 : Nat) : Int) = (2 : Int) ^ w - 1 := by
  have h : (1 : Nat) ≤ 2 ^ w := Nat.one_le_two_pow
  push_cast [h]
  ring

theorem testBit_storeByte (s b w v : Nat) (hv : v < 2 ^ w) (i : Nat) :
    (storeByte s b w v).testBit i =
      if b ≤ i ∧ i < b + w then v.testBit (i - b) else s.testBit i := by
  simp only [storeByte, Nat.testBit_lor, testBit_natDiff, Nat.testBit_shiftLeft,
    Nat.testBit_two_pow_sub_one, ge_iff_le]
  by_cases h1 : b ≤ i
  · by_cases h2 : i < b + w
    · have h3 : i - b < w := by omega
      simp [h1, h2, h3]
    · have h3 : ¬ i - b < w := by omega
      have h4 : v.testBit (i - b) = false :=
        Nat.testBit_lt_two_pow
          (Nat.lt_of_lt_of_le hv (Nat.pow_le_pow_right (by omega) (by omega)))
      simp [h1, h2, h3, h4]
  · have h2 : ¬ (b ≤ i ∧ i < b + w) := by omega
    simp [h1, h2]

theorem storeByte_lt (s b w v : Nat) (hs : s < 2 ^ 8) (hv : v < 2 ^ w)
    (hbw : b + w ≤ 8) : storeByte s b w v < 2 ^ 8 := by
  refine Nat.or_lt_two_pow (natDiff_lt s _ 8 hs) ?_
  calc v <<< b = v * 2 ^ b := Nat.shiftLeft_eq v b
    _ < 2 ^ w * 2 ^ b := by
        have hp : 0 < 2 ^ b := Nat.pos_pow_of_pos b (by omega)
        exact (Nat.mul_lt_mul_right hp).mpr hv
    _ = 2 ^ (w + b) := by rw [Nat.pow_add]
    _ ≤ 2 ^ 8 := Nat.pow_le_pow_right (by omega) (by omega)

theorem extract_storeByte_self (s b w v : Nat) (hv : v < 2 ^ w) :
    (storeByte s b w v >>> b) &&& (2 ^ w - 1) = v := by
  refine Nat.eq_of_testBit_eq fun i => ?_
  simp only [Nat.testBit_land, Nat.testBit_shiftRight,
    Nat.testBit_two_pow_sub_one, testBit_storeByte s b w v hv]
  by_cases hi : i < w
  · have h1 : b ≤ b + i ∧ b + i < b + w := by omega
    simp [h1, hi]
  · have h2 : v.testBit i = false :=
      Nat.testBit_lt_two_pow
        (Nat.lt_of_lt_of_le hv (Nat.pow_le_pow_right (by omega) (by omega)))
    simp [hi, h2]

theorem extract_storeByte_disjoint (s b w v b2 w2 : Nat) (hv : v < 2 ^ w)
    (hdisj : b2 + w2 ≤ b ∨ b + w ≤ b2) :
    (storeByte s b w v >>> b2) &&& (2 ^ w2 - 1) =
      (s >>> b2) &&& (2 ^ w2 - 1) := by
  refine Nat.eq_of_testBit_eq fun i => ?_
  simp only [Nat.testBit_land, Nat.testBit_shiftRight,
    Nat.testBit_two_pow_sub_one, testBit_storeByte s b w v hv]
  by_cases hi : i < w2
  · have h1 : ¬ (b ≤ b2 + i ∧ b2 + i < b + w) := by omega
    simp [h1]
  · simp [hi]

theorem land_shift_mask (v b w : Nat) (hv : v < 2 ^ w) :
    (v <<< b) &&& ((2 ^ w - 1) <<< b) = v <<< b := by
  refine Nat.eq_of_testBit_eq fun i => ?_
  simp only [Nat.testBit_land, Nat.testBit_shiftLeft,
    Nat.testBit_two_pow_sub_one, ge_iff_le]
  by_cases h1 : b ≤ i
  · by_cases h3 : i - b < w
    · simp [h1, h3]
    · have h4 : v.testBit (i - b) = false :=
        Nat.testBit_lt_two_pow
          (Nat.lt_of_lt_of_le hv (Nat.pow_le_pow_right (by omega) (by omega)))
      simp [h1, h3, h4]
  · simp [h1]

/-! ### Symbolic evaluation of the register and field operations -/

/-- `Register.read` on an initialized bus and a readable register returns the
stored byte with one read transaction. -/
theorem Register.read_ok (r : Register) (s : Nat)
    (hbus : r.device.i2c_bus = true) (hr : READ.contains r.r_w = true) :
    r.read s = (.ok s, s, [.readMem r.device.addr r.addr]) := by
  have hm : r.r_w ∈ READ := by simpa using hr
  simp [Register.read, hbus, hm]

/-- Full symbolic evaluation of `Field.write` past the validation checks: the
register is read, the field bits are replaced, the resulting byte is written,
and the verification read then either confirms the value (readable field) or
dies on the field's own permission check (write-only field). -/
theorem fieldWrite_eq (f : Field) (s v : Nat)
    (hbus : f.register.device.i2c_bus = true)
    (hwri : WRITE.contains f.r_w = true)
    (hreg : READ.contains f.register.r_w = true)
    (hs : s < 256) (hv : v < 2 ^ f.width)
    (hw : f.bit_offset + f.width ≤ 8) :
    f.write (v : Int) s =
      if READ.contains f.r_w then
        (.ok (), storeByte s f.bit_offset f.width v,
         [.readMem f.register.device.addr f.register.addr,
          .writeMem f.register.device.addr f.register.addr
            (storeByte s f.bit_offset f.width v),
          .readMem f.register.device.addr f.register.addr])
      else
        (.error (.permissionError f.r_w), storeByte s f.bit_offset f.width v,
         [.readMem f.register.device.addr f.register.addr,
          .writeMem f.register.device.addr f.register.addr
            (storeByte s f.bit_offset f.width v)]) := by
  have hs8 : s < 2 ^ 8 := hs
  have hvN : (v : Int) ≤ (2 : Int) ^ f.width - 1 := by
    rw [← two_pow_sub_one_cast]
    exact_mod_cast Nat.le_sub_one_of_lt hv
  have hrange : ¬ ((2 : Int) ^ f.width - 1 < (v : Int)) := not_lt.mpr hvN
  have hread := Register.read_ok f.register s hbus hreg
  have hshift : pyShiftLeft ((2 : Int) ^ f.width - 1) f.bit_offset
      = (((2 ^ f.width - 1) <<< f.bit_offset : Nat) : Int) := by
    rw [← two_pow_sub_one_cast, pyShiftLeft_coe]
  have hrd : pyOr (pyAnd (s : Int)
        (pyNot (pyShiftLeft ((2 : Int) ^ f.width - 1) f.bit_offset)))
        (pyShiftLeft (v : Int) f.bit_offset)
      = ((storeByte s f.bit_offset f.width v : Nat) : Int) := by
    rw [hshift, pyAnd_coe_pyNot_coe, pyShiftLeft_coe, pyOr_coe_coe, storeByte]
  have hlt : storeByte s f.bit_offset f.width v < 256 :=
    storeByte_lt s _ _ v hs8 hv hw
  have hnr : ¬ (((storeByte s f.bit_offset f.width v : Nat) : Int) < 0 ∨
      (255 : Int) < ((storeByte s f.bit_offset f.width v : Nat) : Int)) := by
    omega
  have hx : (((storeByte s f.bit_offset f.width v : Nat) : Int)).toNat
      = storeByte s f.bit_offset f.width v := Int.toNat_natCast _
  have hwm : f.r_w ∈ WRITE := by simpa using hwri
  rw [Field.write, if_neg (by simp [hbus]), if_neg (by simp [hwm]),
    if_neg hrange, hread]
  simp only [hrd, if_neg hnr, hx]
  cases hfr : READ.contains f.r_w with
  | true =>
    have hm : f.r_w ∈ READ := by simpa using hfr
    have hr2 : f.read (storeByte s f.bit_offset f.width v) =
        (.ok v, storeByte s f.bit_offset f.width v,
         [.readMem f.register.device.addr f.register.addr]) := by
      simp [Field.read, hbus, hm, extract_storeByte_self s _ _ v hv]
    simp [hr2]
  | false =>
    have hm : f.r_w ∉ READ := by simpa using hfr
    have hr2 : f.read (storeByte s f.bit_offset f.width v) =
        (.error (.permissionError f.r_w), storeByte s f.bit_offset f.width v,
         []) := by
      simp [Field.read, hbus, hm]
    simp [hr2]

/-- Tags outside the three-element list validated nowhere on registers are in
neither permission list. -/
theorem not_in_RW_TYPE (s : String) (h : RW_TYPE.contains s = false) :
    READ.contains s = false ∧ WRITE.contains s = false := by
  simp [RW_TYPE, READ, WRITE] at *
  tauto

/-! ### Claim theorems -/

/-- Claim C1: for a read-write field of width `w` at `bit_offset` with
`bit_offset + w ≤ 8` on a readable-writable 8-bit register, and any
`v < 2^w`, `Field.write(v)` succeeds, `Field.read()` afterwards returns `v`,
and every readable sibling field on a bit range disjoint from
`[bit_offset, bit_offset + w)` reads the same value after the write as
before it (the backing store models a transport whose readback returns the
byte most recently written). -/
theorem field_write_read_roundTrip (f g : Field) (s v : Nat)
    (hbus : f.register.device.i2c_bus = true)
    (hf : f.r_w = "R/W") (hreg : f.register.r_w = "R/W")
    (hs : s < 256) (hv : v < 2 ^ f.width)
    (hw : f.bit_offset + f.width ≤ 8)
    (hg : g.register = f.register) (hgr : READ.contains g.r_w = true)
    (hdisj : g.bit_offset + g.width ≤ f.bit_offset ∨
             f.bit_offset + f.width ≤ g.bit_offset) :
    (f.write (v : Int) s).1 = .ok () ∧
    (f.read (f.write (v : Int) s).2.1).1 = .ok v ∧
    (g.read (f.write (v : Int) s).2.1).1 = (g.read s).1 := by
  have hwri : WRITE.contains f.r_w = true := by rw [hf]; rfl
  have hfr : READ.contains f.r_w = true := by rw [hf]; rfl
  have hregc : READ.contains f.register.r_w = true := by rw [hreg]; rfl
  have hmain := fieldWrite_eq f s v hbus hwri hregc hs hv hw
  rw [hfr] at hmain
  simp only [if_true] at hmain
  have hfm : f.r_w ∈ READ := by simpa using hfr
  have hgm : g.r_w ∈ READ := by simpa using hgr
  have hgbus : g.register.device.i2c_bus = true := by rw [hg]; exact hbus
  refine ⟨by rw [hmain], ?_, ?_⟩
  · rw [hmain]
    simp [Field.read, hbus, hfm, extract_storeByte_self s _ _ v hv]
  · rw [hmain]
    simp [Field.read, hgbus, hgm, extract_storeByte_disjoint s f.bit_offset
      f.width v g.bit_offset g.width hv hdisj]

/-- Witness for C1 at the concrete fixture: round trip of value 5 through the
3-bit field at offset 2 over register byte 172, with the sibling at bits 5-7
undisturbed. -/
theorem field_write_read_roundTrip_witness :
    172 < 256 ∧ 5 < 2 ^ exField.width ∧
    exField.bit_offset + exField.width ≤ 8 ∧
    ((exField.write ((5 : Nat) : Int) 172).1 = .ok () ∧
     (exField.read (exField.write ((5 : Nat) : Int) 172).2.1).1 = .ok 5 ∧
     (exSibling.read (exField.write ((5 : Nat) : Int) 172).2.1).1 =
       (exSibling.read 172).1) :=
  ⟨by decide, by decide, by decide,
   field_write_read_roundTrip exField exSibling 172 5 rfl rfl rfl (by decide)
     (by decide) (by decide) rfl rfl (by decide)⟩

/-- Claim C2, counterexample: with register byte `0b1010_1100`, the 3-bit
field at offset 2 does read back 3, but writing 5 stores byte 180, not the
`0b1001_0100` (148) the claim asserts. -/
theorem mask_isolation_counterexample :
    (exField.read 172).1 = .ok 3 ∧
    (exField.write ((5 : Nat) : Int) 172).2.1 = 180 ∧
    (180 : Nat) ≠ 0b10010100 :=
  ⟨rfl, rfl, by decide⟩

/-- Claim C2 as amended: with register byte `0b1010_1100`, the 3-bit field at
offset 2 reads back `0b011` (3); writing `0b101` (5) stores register byte
`0b1011_0100`, and bits 0-1 and 5-7 (mask `0b1110_0011`) are unchanged. -/
theorem mask_isolation_example :
    (exField.read 172).1 = .ok 3 ∧
    exField.write ((5 : Nat) : Int) 172 =
      (.ok (), 0b10110100,
       [.readMem 0x40 0x01, .writeMem 0x40 0x01 0b10110100,
        .readMem 0x40 0x01]) ∧
    (0b10110100 : Nat) &&& 0b11100011 = 172 &&& 0b11100011 :=
  ⟨rfl, rfl, by decide⟩

/-- Claim C3: on an initialized bus, `write` on a field tagged "R" fails with
the permission error and issues no transport operation, and `read` on a field
tagged "W" fails with the permission error and issues no transport
operation. -/
theorem permission_enforcement (f g : Field) (v : Int) (s t : Nat)
    (hbf : f.register.device.i2c_bus = true) (hf : f.r_w = "R")
    (hbg : g.register.device.i2c_bus = true) (hg : g.r_w = "W") :
    f.write v s = (.error (.permissionError "R"), s, []) ∧
    g.read t = (.error (.permissionError "W"), t, []) := by
  constructor
  · have h2 : (WRITE.contains f.r_w) = false := by rw [hf]; rfl
    rw [Field.write, if_neg (by simp [hbf]), if_pos h2, hf]
  · have h2 : (READ.contains g.r_w) = false := by rw [hg]; rfl
    rw [Field.read, if_neg (by simp [hbg]), if_pos h2, hg]

/-- Witness for C3 at the concrete read-only and write-only fixtures. -/
theorem permission_enforcement_witness :
    exReadOnlyField.r_w = "R" ∧ exWriteOnlyField.r_w = "W" ∧
    (exReadOnlyField.write 1 72 = (.error (.permissionError "R"), 72, []) ∧
     exWriteOnlyField.read 72 = (.error (.permissionError "W"), 72, [])) :=
  ⟨rfl, rfl, permission_enforcement exReadOnlyField exWriteOnlyField 1 72 72
    rfl rfl rfl rfl⟩

/-- Claim C4, what the code actually does: `Field.write(2**width)` on a
writable field takes the value-too-large branch but raises `AttributeError`
there, because the message f-string at line 335 interpolates `self.size`, an
attribute `Field` never defines; no transport call is issued. -/
theorem width_check_attributeError (f : Field) (s : Nat)
    (hbus : f.register.device.i2c_bus = true)
    (hwri : WRITE.contains f.r_w = true) :
    f.write ((2 : Int) ^ f.width) s =
      (.error (.attributeError "size"), s, []) := by
  have h1 : (2 : Int) ^ f.width - 1 < (2 : Int) ^ f.width := by omega
  rw [Field.write, if_neg (by simp [hbus]), if_neg (by rw [hwri]; simp),
    if_pos h1]

/-- Witness for C4 at the concrete fixture: writing 8 to the 3-bit field. -/
theorem width_check_attributeError_witness :
    WRITE.contains exField.r_w = true ∧
    exField.write ((2 : Int) ^ exField.width) 172 =
      (.error (.attributeError "size"), 172, []) :=
  ⟨rfl, width_check_attributeError exField 172 rfl rfl⟩

/-- Claim C5, what the code actually does: `Device.reg_write` writes the data
byte, but then line 136 consults `self.register.r_w` — the attribute named
"register" on the device, not the `register` parameter — so on any device
without a register literally named "register" it raises `AttributeError`
after the bus write, regardless of the target register being readable. -/
theorem reg_write_attributeError (d : Device) (r : Register) (data : Int)
    (s : Nat) (hbus : d.i2c_bus = true) (hattr : d.registerAttr = none)
    (h0 : 0 ≤ data) (h255 : data ≤ 255) :
    d.reg_write r data s =
      (.error (.attributeError "register"), data.toNat,
       [.writeMem d.addr r.addr data.toNat]) := by
  have h1 : ¬ (data < 0 ∨ 255 < data) := by omega
  rw [Device.reg_write, if_neg (by simp [hbus]), if_neg h1, hattr]

/-- Witness for C5 at the concrete device fixture. -/
theorem reg_write_attributeError_witness :
    exDevice.registerAttr = none ∧
    exDevice.reg_write exRegister 7 3 =
      (.error (.attributeError "register"), 7, [.writeMem 0x40 0x01 7]) :=
  ⟨rfl, reg_write_attributeError exDevice exRegister 7 3 rfl rfl (by decide)
    (by decide)⟩

/-- Claim C6, what the code actually does: with raw field value 0 the query
path of `voltage_limit` returns `0 * 2 + 1054 = 1054`, not the 1504 of the
affine transform named by the spec (the write path does use offset 1504:
commanding 1550 computes raw 23 and that byte reaches the bus). -/
theorem voltage_limit_offset_mismatch :
    (BQ25756.voltage_limit_query true 0).1 = .ok 1054 ∧
    (1054 : Int) ≠ 1504 ∧
    BQ25756.voltage_limit_command true 1550 0 =
      (.ok (), 23, [.readMem 0x6B 0x00, .writeMem 0x6B 0x00 23,
                    .readMem 0x6B 0x00]) :=
  ⟨rfl, by decide, rfl⟩

/-- Claim C7: `read_modify` is the pure function
`(read_data & ~mask) | (modify_data & mask)`, and the byte a successful
`Field.write` sends to the bus is exactly
`read_modify(register_byte, v << bit_offset, (2^width - 1) << bit_offset)`. -/
theorem read_modify_refinement (f : Field) (s v : Nat)
    (hbus : f.register.device.i2c_bus = true)
    (hf : f.r_w = "R/W") (hreg : f.register.r_w = "R/W")
    (hs : s < 256) (hv : v < 2 ^ f.width)
    (hw : f.bit_offset + f.width ≤ 8) :
    (∀ r m b : Int,
      read_modify r m b = pyOr (pyAnd r (pyNot b)) (pyAnd m b)) ∧
    (f.write ((v : Nat) : Int) s).2.2 =
      [.readMem f.register.device.addr f.register.addr,
       .writeMem f.register.device.addr f.register.addr
         (read_modify (s : Int) (pyShiftLeft (v : Int) f.bit_offset)
            (pyShiftLeft ((2 : Int) ^ f.width - 1) f.bit_offset)).toNat,
       .readMem f.register.device.addr f.register.addr] := by
  refine ⟨fun r m b => rfl, ?_⟩
  have hwri : WRITE.contains f.r_w = true := by rw [hf]; rfl
  have hfr : READ.contains f.r_w = true := by rw [hf]; rfl
  have hregc : READ.contains f.register.r_w = true := by rw [hreg]; rfl
  have hmain := fieldWrite_eq f s v hbus hwri hregc hs hv hw
  rw [hfr] at hmain
  simp only [if_true] at hmain
  rw [hmain]
  have hcast : read_modify (s : Int) (pyShiftLeft (v : Int) f.bit_offset)
      (pyShiftLeft ((2 : Int) ^ f.width - 1) f.bit_offset)
      = ((storeByte s f.bit_offset f.width v : Nat) : Int) := by
    rw [read_modify, ← two_pow_sub_one_cast, pyShiftLeft_coe, pyShiftLeft_coe,
      pyAnd_coe_pyNot_coe, pyAnd_coe_coe, pyOr_coe_coe,
      land_shift_mask v _ _ hv, storeByte]
  rw [hcast, Int.toNat_natCast]

/-- Witness for C7 at the concrete fixture. -/
theorem read_modify_refinement_witness :
    172 < 256 ∧ 5 < 2 ^ exField.width ∧
    ((∀ r m b : Int,
       read_modify r m b = pyOr (pyAnd r (pyNot b)) (pyAnd m b)) ∧
     (exField.write ((5 : Nat) : Int) 172).2.2 =
       [.readMem 0x40 0x01,
        .writeMem 0x40 0x01
          (read_modify ((172 : Nat) : Int)
            (pyShiftLeft ((5 : Nat) : Int) exField.bit_offset)
            (pyShiftLeft ((2 : Int) ^ exField.width - 1)
              exField.bit_offset)).toNat,
        .readMem 0x40 0x01]) :=
  ⟨by decide, by decide,
   read_modify_refinement exField 172 5 rfl rfl rfl (by decide) (by decide)
     (by decide)⟩

/-- Claim C8: a write-only field on a readable register never completes
`Field.write` successfully for any in-range value: the modified byte is
written to the bus, and the unconditional verification read then fails on the
field's own permission check. -/
theorem write_only_field_never_writable (f : Field) (s v : Nat)
    (hbus : f.register.device.i2c_bus = true)
    (hf : f.r_w = "W") (hreg : READ.contains f.register.r_w = true)
    (hs : s < 256) (hv : v < 2 ^ f.width)
    (hw : f.bit_offset + f.width ≤ 8) :
    (f.write ((v : Nat) : Int) s).1 = .error (.permissionError "W") ∧
    (f.write ((v : Nat) : Int) s).2.2 =
      [.readMem f.register.device.addr f.register.addr,
       .writeMem f.register.device.addr f.register.addr
         (storeByte s f.bit_offset f.width v)] := by
  have hwri : WRITE.contains f.r_w = true := by rw [hf]; rfl
  have hfr : READ.contains f.r_w = false := by rw [hf]; rfl
  have hmain := fieldWrite_eq f s v hbus hwri hreg hs hv hw
  rw [hfr] at hmain
  simp only [Bool.false_eq_true, if_false] at hmain
  rw [hmain, hf]
  exact ⟨rfl, rfl⟩

/-- Witness for C8 at the concrete write-only fixture. -/
theorem write_only_field_never_writable_witness :
    exWriteOnlyField.r_w = "W" ∧ 5 < 2 ^ exWriteOnlyField.width ∧
    ((exWriteOnlyField.write ((5 : Nat) : Int) 172).1 =
       .error (.permissionError "W") ∧
     (exWriteOnlyField.write ((5 : Nat) : Int) 172).2.2 =
       [.readMem 0x40 0x01,
        .writeMem 0x40 0x01 (storeByte 172 exWriteOnlyField.bit_offset
          exWriteOnlyField.width 5)]) :=
  ⟨rfl, by decide,
   write_only_field_never_writable exWriteOnlyField 172 5 rfl rfl rfl
     (by decide) (by decide) (by decide)⟩

/-- Claim C9: on a writable field of a readable register, `Field.write` of
any negative value passes the width check (which only bounds from above),
reaches the read-modify-write bus path (the register read is issued), and
only fails later, when the negative modified byte cannot be packed by
`bytes([...])`. -/
theorem negative_value_passes_width_check (f : Field) (s : Nat) (v : Int)
    (hv : v < 0)
    (hbus : f.register.device.i2c_bus = true)
    (hwri : WRITE.contains f.r_w = true)
    (hreg : READ.contains f.register.r_w = true) :
    ∃ x : Int, x < 0 ∧
      f.write v s =
        (.error (.byteRangeError x), s,
         [.readMem f.register.device.addr f.register.addr]) := by
  have hpow : (0 : Int) < 2 ^ f.width := by positivity
  have h1 : ¬ ((2 : Int) ^ f.width - 1 < v) := by omega
  have hread := Register.read_ok f.register s hbus hreg
  have hneg : pyShiftLeft v f.bit_offset < 0 := pyShiftLeft_neg _ _ hv
  have hshift : pyShiftLeft ((2 : Int) ^ f.width - 1) f.bit_offset
      = (((2 ^ f.width - 1) <<< f.bit_offset : Nat) : Int) := by
    rw [← two_pow_sub_one_cast, pyShiftLeft_coe]
  have hrd1 : pyAnd (s : Int)
      (pyNot (pyShiftLeft ((2 : Int) ^ f.width - 1) f.bit_offset))
      = ((natDiff s ((2 ^ f.width - 1) <<< f.bit_offset) : Nat) : Int) := by
    rw [hshift, pyAnd_coe_pyNot_coe]
  have hx : pyOr ((natDiff s ((2 ^ f.width - 1) <<< f.bit_offset) : Nat) : Int)
      (pyShiftLeft v f.bit_offset) < 0 := by
    rw [pyOr_coe_neg _ _ hneg]
    exact pyNot_coe_neg _
  refine ⟨_, hx, ?_⟩
  rw [Field.write, if_neg (by simp [hbus]), if_neg (by rw [hwri]; simp),
    if_neg h1, hread]
  simp only [hrd1]
  rw [if_pos (Or.inl hx)]

/-- Witness for C9 at the concrete fixture, with the negative value -1. -/
theorem negative_value_passes_width_check_witness :
    (-1 : Int) < 0 ∧ WRITE.contains exField.r_w = true ∧
    (∃ x : Int, x < 0 ∧
      exField.write (-1) 172 =
        (.error (.byteRangeError x), 172, [.readMem 0x40 0x01])) :=
  ⟨by decide, rfl,
   negative_value_passes_width_check exField 172 (-1) (by decide) rfl rfl rfl⟩

/-- Claim C10: `Register.__init__` stores any r_w string unvalidated (its
construction succeeds for every tag), `Field.__init__` rejects tags outside
`_RW_TYPE`, and a register holding such a tag is completely inaccessible:
both `Register.read` and `Register.write` fail their permission checks. -/
theorem register_rw_tag_unvalidated (d : Device) (a : Nat) (s : String)
    (hs : RW_TYPE.contains s = false) (r : Register) (hr : r.r_w = s)
    (hbus : r.device.i2c_bus = true) (v : Int) (st st2 : Nat) :
    mkRegister d a 8 s =
      .ok { device := d, addr := a, width := 8, r_w := s } ∧
    mkField r 0 1 s = .error (.badRWTag s) ∧
    r.read st = (.error (.permissionError s), st, []) ∧
    r.write v st2 = (.error (.permissionError s), st2, []) := by
  obtain ⟨hR, hW⟩ := not_in_RW_TYPE s hs
  refine ⟨?_, ?_, ?_, ?_⟩
  · rw [mkRegister, if_neg (by decide)]
  · rw [mkField, if_pos hs]
  · have h2 : READ.contains r.r_w = false := by rw [hr]; exact hR
    rw [Register.read, if_neg (by simp [hbus]), if_pos h2, hr]
  · have h2 : WRITE.contains r.r_w = false := by rw [hr]; exact hW
    rw [Register.write, if_neg (by simp [hbus]), if_pos h2, hr]

/-- Witness for C10 with the tag "banana". -/
theorem register_rw_tag_unvalidated_witness :
    RW_TYPE.contains "banana" = false ∧ exRawRegister.r_w = "banana" ∧
    (mkRegister exDevice 5 8 "banana" =
       .ok { device := exDevice, addr := 5, width := 8, r_w := "banana" } ∧
     mkField exRawRegister 0 1 "banana" = .error (.badRWTag "banana") ∧
     exRawRegister.read 1 =
       (.error (.permissionError "banana"), 1, []) ∧
     exRawRegister.write 7 2 =
       (.error (.permissionError "banana"), 2, [])) :=
  ⟨rfl, rfl, register_rw_tag_unvalidated exDevice 5 "banana" rfl exRawRegister
    rfl rfl 7 1 2⟩

end I2CDrivers
